import Mathlib

/-!
Formal model of the AmazonSESAdapter mail adapter
(src/lib/AmazonSESAdapter.js), a template-driven e-mail composition
pipeline for a pluggable mail-adapter host.  JavaScript values are
modelled by an inductive type carrying JS truthiness; the filesystem,
the lodash interpolation engine and the juice CSS inliner are
abstracted as capabilities in an environment record; the SES transport
is modelled by recording the payload handed to it.  The outcome of a
send call distinguishes a synchronous throw, a pipeline failure that is
logged and fulfils the returned promise with undefined, and a payload
handed to the transport.
-/

namespace AmazonSESAdapter

/-- Model of the JavaScript values the adapter manipulates.  A plain
object (constructor name Object) is distinguished from arrays and from
objects with another or no constructor, because the adapter performs a
constructor-name check on per-user variable overlays. -/
inductive JSVal where
  | undef
  | jsNull
  | jstr (s : String)
  | jnum (n : Int)
  | jbool (b : Bool)
  | jarr (elems : List JSVal)
  | jobjPlain (fields : List (String × JSVal))
  | jobjOther (ctorName : Option String)

/-- JavaScript truthiness: undefined, null, the empty string, 0 and
false are falsy; every object (plain or not, arrays included) is
truthy. -/
def truthy : JSVal → Bool
  | .undef => false
  | .jsNull => false
  | .jstr s => s != ""
  | .jnum n => n != 0
  | .jbool b => b
  | .jarr _ => true
  | .jobjPlain _ => true
  | .jobjOther _ => true

/-- The JavaScript typeof v === string test. -/
def isString : JSVal → Bool
  | .jstr _ => true
  | _ => false

/-- The JavaScript a || b short-circuit on values: a when truthy,
otherwise b. -/
def jsOr (a b : JSVal) : JSVal :=
  if truthy a then a else b

/-- The check v && v.constructor && v.constructor.name === Object used
by the adapter to decide whether a value returned by a template
callback is a plain object.  Only a plain object passes (objects are
always truthy); arrays, primitives, null, undefined and objects with
another or no constructor fail. -/
def isPlainObject : JSVal → Bool
  | .jobjPlain _ => true
  | _ => false

/-- The fields of a plain object, empty for any other value. -/
def plainFields : JSVal → List (String × JSVal)
  | .jobjPlain fields => fields
  | _ => []

/-- JavaScript property-key coercion for object indexing, applied to
templates[templateName]. -/
def jsToKey : JSVal → String
  | .jstr s => s
  | .jnum n => toString n
  | .jbool b => if b then "true" else "false"
  | .jsNull => "null"
  | .undef => "undefined"
  | .jarr _ => ""
  | .jobjPlain _ => "[object Object]"
  | .jobjOther _ => "[object Object]"

/-- Overwrite-or-append of a single key, the building block of
Object.assign. -/
def setKey (l : List (String × JSVal)) (k : String) (v : JSVal) :
    List (String × JSVal) :=
  if l.any (fun kv => kv.1 == k) then
    l.map (fun kv => if kv.1 == k then (k, v) else kv)
  else l ++ [(k, v)]

/-- Object.assign(base, overlay): overlay keys win, base key order is
kept, new keys are appended. -/
def objAssign (base overlay : List (String × JSVal)) :
    List (String × JSVal) :=
  overlay.foldl (fun acc kv => setKey acc kv.1 kv.2) base

/-- The Parse user object, abstracted as a bag of attributes read
through get; a missing attribute reads as undefined. -/
structure User where
  attrs : List (String × JSVal)

def User.get (u : User) (k : String) : JSVal :=
  (u.attrs.lookup k).getD JSVal.undef

/-- The optional callback slot of a template: absent (undefined),
present but not a function, or an actual function of the user object
(which may itself be undefined). -/
inductive CallbackField where
  | absent
  | nonFunction (v : JSVal)
  | fn (f : Option User → JSVal)

/-- Truthiness of the callback slot as a JavaScript value. -/
def callbackTruthy : CallbackField → Bool
  | .absent => false
  | .nonFunction v => truthy v
  | .fn _ => true

/-- The typeof callback === function test. -/
def callbackIsFunction : CallbackField → Bool
  | .fn _ => true
  | _ => false

/-- One entry of the adapter template mapping, with every field a raw
JavaScript value as destructured by the source. -/
structure TemplateEntry where
  subject : JSVal
  pathPlainText : JSVal
  pathHtml : JSVal
  htmlInliner : JSVal
  callback : CallbackField
  configurationSetName : JSVal

/-- The empty object substituted by templates[key] || {} when a slot
is absent. -/
def emptyEntry : TemplateEntry :=
  { subject := JSVal.undef, pathPlainText := JSVal.undef,
    pathHtml := JSVal.undef, htmlInliner := JSVal.undef,
    callback := CallbackField.absent,
    configurationSetName := JSVal.undef }

/-- The errors the adapter throws, one constructor per distinct throw
site, plus the TypeError raised by reading a property of undefined. -/
inductive AdapterError where
  | configRequired
  | templatesMisconfigured
  | callbackNotFunction
  | unknownTemplate (name : String)
  | missingSubject (name : String)
  | missingRecipient (name : String)
  | typeError
deriving DecidableEq

/-- The options object handed to the adapter constructor. -/
structure AdapterConfig where
  accessKeyId : JSVal
  secretAccessKey : JSVal
  region : JSVal
  fromAddress : JSVal
  templates : Option (List (String × TemplateEntry))

/-- The immutable state a successful construction produces. -/
structure AdapterState where
  fromAddress : JSVal
  templates : List (String × TemplateEntry)

/-- The per-slot validation the constructor runs for the two built-in
template slots: subject and pathPlainText must be strings, and a
truthy callback must be a function. -/
def slotOk (e : TemplateEntry) : Except AdapterError Unit :=
  if !isString e.subject || !isString e.pathPlainText then
    .error .templatesMisconfigured
  else if callbackTruthy e.callback && !callbackIsFunction e.callback then
    .error .callbackNotFunction
  else .ok ()

/-- The AmazonSESAdapter constructor: requires truthy accessKeyId,
secretAccessKey, region and fromAddress, then validates the
passwordResetEmail and verificationEmail slots (an absent slot is
validated as the empty object). -/
def mkAdapter (cfg : AdapterConfig) : Except AdapterError AdapterState :=
  if !truthy cfg.accessKeyId || !truthy cfg.secretAccessKey ||
      !truthy cfg.region || !truthy cfg.fromAddress then
    .error .configRequired
  else
    let templates := cfg.templates.getD []
    match slotOk ((templates.lookup "passwordResetEmail").getD emptyEntry),
          slotOk ((templates.lookup "verificationEmail").getD emptyEntry) with
    | .error e, _ => .error e
    | .ok _, .error e => .error e
    | .ok _, .ok _ =>
      .ok { fromAddress := cfg.fromAddress, templates := templates }

/-- The options object _sendMail receives.  A named request carries a
truthy templateName; a purpose request carries link, appName, user and
templateConfig.  Every optional field holds undefined when absent. -/
structure SendOptions where
  templateName : JSVal
  subject : JSVal
  fromAddress : JSVal
  recipient : JSVal
  vars : List (String × JSVal)
  configurationSetName : JSVal
  link : JSVal
  appName : JSVal
  user : Option User
  templateConfig : Option TemplateEntry

/-- The message descriptor the synchronous part of _sendMail resolves
before the asynchronous pipeline starts. -/
structure ResolvedMessage where
  fromAddress : JSVal
  toAddr : JSVal
  subject : JSVal
  pathPlainText : JSVal
  pathHtml : JSVal
  htmlInliner : JSVal
  templateVars : List (String × JSVal)
  configurationSetName : JSVal

/-- The base variable set seeded for a purpose request before any
per-user overlay: link, appName, username, and email falling back to
username. -/
def baseVars (opts : SendOptions) (u : User) : List (String × JSVal) :=
  [("link", opts.link), ("appName", opts.appName),
   ("username", u.get "username"),
   ("email", jsOr (u.get "email") (u.get "username"))]

/-- The synchronous resolution phase of _sendMail.  Dispatch is by the
truthiness of options.templateName.  The named branch validates the
template name, then the subject, then the recipient; the purpose
branch reads templateConfig.callback (a TypeError when templateConfig
is undefined), runs a function-valued callback and keeps its result
only when it is a plain object, then reads the user attributes (a
TypeError when user is undefined). -/
def sendMailResolve (st : AdapterState) (opts : SendOptions) :
    Except AdapterError ResolvedMessage :=
  if truthy opts.templateName then
    let tname := jsToKey opts.templateName
    match st.templates.lookup tname with
    | none => .error (.unknownTemplate tname)
    | some tmpl =>
      if !truthy opts.subject && !truthy tmpl.subject then
        .error (.missingSubject tname)
      else if !truthy opts.recipient then
        .error (.missingRecipient tname)
      else
        .ok { fromAddress := jsOr opts.fromAddress st.fromAddress,
              toAddr := opts.recipient,
              subject := jsOr opts.subject tmpl.subject,
              pathPlainText := tmpl.pathPlainText,
              pathHtml := tmpl.pathHtml,
              htmlInliner := tmpl.htmlInliner,
              templateVars := opts.vars,
              configurationSetName := opts.configurationSetName }
  else
    match opts.templateConfig with
    | none => .error .typeError
    | some tc =>
      let userVars : List (String × JSVal) :=
        match tc.callback with
        | .fn f =>
          let uv := f opts.user
          if isPlainObject uv then plainFields uv else []
        | _ => []
      match opts.user with
      | none => .error .typeError
      | some u =>
        .ok { fromAddress := st.fromAddress,
              toAddr := jsOr (u.get "email") (u.get "username"),
              subject := tc.subject,
              pathPlainText := tc.pathPlainText,
              pathHtml := tc.pathHtml,
              htmlInliner := tc.htmlInliner,
              templateVars := objAssign (baseVars opts u) userVars,
              configurationSetName := tc.configurationSetName }

/-- The external capabilities: loadEmailTemplate over fs.readFile,
the lodash template interpolation, and the juice CSS inliner. -/
structure Env where
  loadTemplate : String → Except String String
  interpolate : String → List (String × JSVal) → String
  inlineCss : String → String

/-- loadEmailTemplate applied to a resolved path value: fs.readFile
rejects on a non-string path. -/
def runLoad (env : Env) : JSVal → Except String String
  | .jstr s => env.loadTemplate s
  | _ => .error "path must be a string"

/-- The payload handed to ses.send: from, to wrapped in a singleton
sequence, subject, the interpolated text body, the optional html body,
and the configuration set name. -/
structure Payload where
  fromAddress : JSVal
  toAddr : List JSVal
  subject : JSVal
  text : String
  html : Option String
  configurationSetName : JSVal

/-- The asynchronous pipeline of _sendMail: load and interpolate the
plain-text template, then, when a truthy html path is present, load
and interpolate the html template and optionally inline its CSS, and
assemble the payload.  The second component records every path handed
to the load capability, in order. -/
def runPipeline (env : Env) (r : ResolvedMessage) :
    Except String Payload × List JSVal :=
  match runLoad env r.pathPlainText with
  | .error e => (.error e, [r.pathPlainText])
  | .ok plainContent =>
    let text := env.interpolate plainContent r.templateVars
    if truthy r.pathHtml then
      match runLoad env r.pathHtml with
      | .error e => (.error e, [r.pathPlainText, r.pathHtml])
      | .ok htmlContent =>
        let compiledHtml := env.interpolate htmlContent r.templateVars
        let htmlBody :=
          if truthy r.htmlInliner then env.inlineCss compiledHtml
          else compiledHtml
        (.ok { fromAddress := r.fromAddress, toAddr := [r.toAddr],
               subject := r.subject, text := text,
               html := some htmlBody,
               configurationSetName := r.configurationSetName },
         [r.pathPlainText, r.pathHtml])
    else
      (.ok { fromAddress := r.fromAddress, toAddr := [r.toAddr],
             subject := r.subject, text := text, html := none,
             configurationSetName := r.configurationSetName },
       [r.pathPlainText])

/-- How a _sendMail call ends: a synchronous throw during resolution;
a pipeline failure, which the rejection handler logs to the console so
that the returned promise fulfils with undefined; or the payload
handed to the transport capability. -/
inductive SendOutcome where
  | thrown (e : AdapterError)
  | errorLogged (cause : String)
  | transported (p : Payload)

/-- The observable result of a _sendMail call: its outcome and the
paths handed to the load capability. -/
structure SendResult where
  outcome : SendOutcome
  loadCalls : List JSVal

/-- _sendMail end to end: synchronous resolution, then the pipeline;
a pipeline error reaches the console.error rejection handler, so the
call never reaches the transport and the promise fulfils with
undefined. -/
def sendMail (env : Env) (st : AdapterState) (opts : SendOptions) :
    SendResult :=
  match sendMailResolve st opts with
  | .error e => { outcome := .thrown e, loadCalls := [] }
  | .ok r =>
    let pr := runPipeline env r
    match pr.1 with
    | .error c => { outcome := .errorLogged c, loadCalls := pr.2 }
    | .ok p => { outcome := .transported p, loadCalls := pr.2 }

/-- The options a purpose wrapper builds for _sendMail. -/
def purposeOptions (link appName : JSVal) (user : Option User)
    (tc : Option TemplateEntry) : SendOptions :=
  { templateName := JSVal.undef, subject := JSVal.undef,
    fromAddress := JSVal.undef, recipient := JSVal.undef,
    vars := [], configurationSetName := JSVal.undef,
    link := link, appName := appName, user := user,
    templateConfig := tc }

/-- sendPasswordResetEmail: a purpose request with the
passwordResetEmail slot as templateConfig. -/
def sendPasswordResetEmail (env : Env) (st : AdapterState)
    (link appName : JSVal) (user : Option User) : SendResult :=
  sendMail env st
    (purposeOptions link appName user
      (st.templates.lookup "passwordResetEmail"))

/-- sendVerificationEmail: a purpose request with the
verificationEmail slot as templateConfig. -/
def sendVerificationEmail (env : Env) (st : AdapterState)
    (link appName : JSVal) (user : Option User) : SendResult :=
  sendMail env st
    (purposeOptions link appName user
      (st.templates.lookup "verificationEmail"))

/-- send: a named request; variables defaults to the empty mapping,
and no templateConfig is passed. -/
def send (env : Env) (st : AdapterState)
    (templateName subject fromAddress recipient : JSVal)
    (vars : Option (List (String × JSVal)))
    (configurationSetName : JSVal) : SendResult :=
  sendMail env st
    { templateName := templateName, subject := subject,
      fromAddress := fromAddress, recipient := recipient,
      vars := vars.getD [],
      configurationSetName := configurationSetName,
      link := JSVal.undef, appName := JSVal.undef, user := none,
      templateConfig := none }

/-! ## Concrete fixtures used by counterexamples and witnesses -/

/-- A load capability that always succeeds, returning a content string
derived from the path; interpolation returns the template unchanged. -/
def envOk : Env :=
  { loadTemplate := fun p => .ok ("content of " ++ p),
    interpolate := fun t _ => t,
    inlineCss := fun h => h }

/-- A load capability that always fails, as an unreadable template
directory would. -/
def envFail : Env :=
  { loadTemplate := fun _ => .error "ENOENT: no such file or directory",
    interpolate := fun t _ => t,
    inlineCss := fun h => h }

/-- A well-formed password-reset slot. -/
def entryReset : TemplateEntry :=
  { subject := JSVal.jstr "Reset", pathPlainText := JSVal.jstr "reset.txt",
    pathHtml := JSVal.undef, htmlInliner := JSVal.undef,
    callback := CallbackField.absent,
    configurationSetName := JSVal.undef }

/-- A well-formed verification slot. -/
def entryVerify : TemplateEntry :=
  { subject := JSVal.jstr "Verify", pathPlainText := JSVal.jstr "verify.txt",
    pathHtml := JSVal.undef, htmlInliner := JSVal.undef,
    callback := CallbackField.absent,
    configurationSetName := JSVal.undef }

/-- A general-purpose named template with a default subject. -/
def entryWelcome : TemplateEntry :=
  { subject := JSVal.jstr "Welcome", pathPlainText := JSVal.jstr "welcome.txt",
    pathHtml := JSVal.undef, htmlInliner := JSVal.undef,
    callback := CallbackField.absent,
    configurationSetName := JSVal.undef }

/-- A named template whose default subject is absent (the constructor
only validates the two built-in slots, so such an entry can sit in the
mapping). -/
def entryNoSubject : TemplateEntry :=
  { subject := JSVal.undef, pathPlainText := JSVal.jstr "generic.txt",
    pathHtml := JSVal.undef, htmlInliner := JSVal.undef,
    callback := CallbackField.absent,
    configurationSetName := JSVal.undef }

/-- An adapter state with both built-in slots and two named
templates. -/
def stOne : AdapterState :=
  { fromAddress := JSVal.jstr "noreply@example.com",
    templates := [("passwordResetEmail", entryReset),
                  ("verificationEmail", entryVerify),
                  ("welcome", entryWelcome),
                  ("generic", entryNoSubject)] }

/-- A user with neither email nor username attribute. -/
def userEmpty : User := { attrs := [] }

/-- A user with both attributes set. -/
def userAnn : User :=
  { attrs := [("username", JSVal.jstr "ann"),
              ("email", JSVal.jstr "ann@example.com")] }

/-! ## Claims -/

/-- Claim C9 (confirmed): construction fails synchronously with the
configuration error, producing no adapter state, whenever any of
accessKeyId, secretAccessKey, region or fromAddress is missing
(undefined) or the empty string. -/
theorem c9_constructor_rejects_missing_credentials (cfg : AdapterConfig)
    (h : cfg.accessKeyId = JSVal.undef ∨ cfg.accessKeyId = JSVal.jstr "" ∨
         cfg.secretAccessKey = JSVal.undef ∨ cfg.secretAccessKey = JSVal.jstr "" ∨
         cfg.region = JSVal.undef ∨ cfg.region = JSVal.jstr "" ∨
         cfg.fromAddress = JSVal.undef ∨ cfg.fromAddress = JSVal.jstr "") :
    mkAdapter cfg = Except.error AdapterError.configRequired := by
  unfold mkAdapter
  rcases h with h | h | h | h | h | h | h | h <;> simp [h, truthy]

/-- Witness for C9: a configuration with an empty accessKeyId is
rejected. -/
theorem c9_constructor_rejects_missing_credentials_witness :
    mkAdapter { accessKeyId := JSVal.jstr "",
                secretAccessKey := JSVal.jstr "secret",
                region := JSVal.jstr "eu-west-1",
                fromAddress := JSVal.jstr "noreply@example.com",
                templates := none }
      = Except.error AdapterError.configRequired :=
  c9_constructor_rejects_missing_credentials _ (Or.inr (Or.inl rfl))

/-- A template slot entry passes the constructor check exactly when its
subject and plain-text path are strings and a truthy callback value is
a function. -/
def entryWellFormed (e : TemplateEntry) : Bool :=
  isString e.subject && isString e.pathPlainText &&
    !(callbackTruthy e.callback && !callbackIsFunction e.callback)

/-- A configuration with valid credentials but with both built-in
template slots absent from the supplied mapping. -/
def cfgNoSlots : AdapterConfig :=
  { accessKeyId := JSVal.jstr "AKIA", secretAccessKey := JSVal.jstr "secret",
    region := JSVal.jstr "eu-west-1",
    fromAddress := JSVal.jstr "noreply@example.com",
    templates := some [] }

/-- Counterexample to C2: with valid credentials and an empty templates
mapping (both built-in slots absent), construction does not succeed; it
throws the templates-misconfigured error, because an absent slot is
validated as the empty object whose subject is undefined, not a
string. -/
theorem c2_counterexample_absent_slots_rejected :
    mkAdapter cfgNoSlots = Except.error AdapterError.templatesMisconfigured := by
  rfl

/-- Claim C2 (corrected): with truthy credentials, construction
succeeds if and only if BOTH built-in slots (passwordResetEmail and
verificationEmail) are supplied and well-formed: string subject, string
plain-text path, and any truthy callback a function.  Absent slots are
not optional: an absent slot is validated as the empty object and
rejected. -/
theorem slotOk_eq_ok_iff (e : TemplateEntry) :
    slotOk e = Except.ok () ↔ entryWellFormed e = true := by
  unfold slotOk entryWellFormed
  cases hs : isString e.subject <;>
    cases hp : isString e.pathPlainText <;>
    cases hct : callbackTruthy e.callback <;>
    cases hcf : callbackIsFunction e.callback <;>
    simp

/-- Whether construction produced an adapter state. -/
def constructionOk (r : Except AdapterError AdapterState) : Bool :=
  match r with
  | .ok _ => true
  | .error _ => false

theorem c2_amended_both_slots_required (cfg : AdapterConfig)
    (h1 : truthy cfg.accessKeyId = true)
    (h2 : truthy cfg.secretAccessKey = true)
    (h3 : truthy cfg.region = true)
    (h4 : truthy cfg.fromAddress = true) :
    constructionOk (mkAdapter cfg) = true ↔
      (entryWellFormed
          (((cfg.templates.getD []).lookup "passwordResetEmail").getD emptyEntry) = true ∧
       entryWellFormed
          (((cfg.templates.getD []).lookup "verificationEmail").getD emptyEntry) = true) := by
  rw [← slotOk_eq_ok_iff, ← slotOk_eq_ok_iff]
  unfold mkAdapter
  simp only [h1, h2, h3, h4, Bool.not_true, Bool.or_self, Bool.false_or,
    Bool.false_eq_true, if_false]
  cases hP : slotOk (((cfg.templates.getD []).lookup "passwordResetEmail").getD emptyEntry) <;>
    cases hV : slotOk (((cfg.templates.getD []).lookup "verificationEmail").getD emptyEntry) <;>
    simp [hP, hV, constructionOk]

/-- Witness for C2 amended: a configuration carrying both built-in
slots well-formed constructs successfully. -/
theorem c2_amended_both_slots_required_witness :
    constructionOk (mkAdapter
      { accessKeyId := JSVal.jstr "AKIA", secretAccessKey := JSVal.jstr "secret",
        region := JSVal.jstr "eu-west-1",
        fromAddress := JSVal.jstr "noreply@example.com",
        templates := some [("passwordResetEmail", entryReset),
                           ("verificationEmail", entryVerify)] }) = true :=
  (c2_amended_both_slots_required _ (by decide) (by decide) (by decide)
    (by decide)).mpr ⟨by decide, by decide⟩

/-- Characterization of the named branch of the resolution phase. -/
theorem resolve_named (st : AdapterState) (opts : SendOptions) (n : String)
    (h1 : opts.templateName = JSVal.jstr n) (h2 : n ≠ "") :
    sendMailResolve st opts =
      (match st.templates.lookup n with
       | none => Except.error (AdapterError.unknownTemplate n)
       | some tmpl =>
         if !truthy opts.subject && !truthy tmpl.subject then
           Except.error (AdapterError.missingSubject n)
         else if !truthy opts.recipient then
           Except.error (AdapterError.missingRecipient n)
         else
           Except.ok { fromAddress := jsOr opts.fromAddress st.fromAddress,
                       toAddr := opts.recipient,
                       subject := jsOr opts.subject tmpl.subject,
                       pathPlainText := tmpl.pathPlainText,
                       pathHtml := tmpl.pathHtml,
                       htmlInliner := tmpl.htmlInliner,
                       templateVars := opts.vars,
                       configurationSetName := opts.configurationSetName }) := by
  unfold sendMailResolve
  rw [h1]
  have ht : truthy (JSVal.jstr n) = true := by simp [truthy, h2]
  rw [ht]
  simp [jsToKey]

/-- Characterization of the purpose branch of the resolution phase
when templateConfig and user are both present: it always succeeds. -/
theorem resolve_purpose (st : AdapterState) (opts : SendOptions)
    (tc : TemplateEntry) (u : User)
    (hn : truthy opts.templateName = false)
    (htc : opts.templateConfig = some tc)
    (hu : opts.user = some u) :
    sendMailResolve st opts = Except.ok
      { fromAddress := st.fromAddress,
        toAddr := jsOr (u.get "email") (u.get "username"),
        subject := tc.subject,
        pathPlainText := tc.pathPlainText,
        pathHtml := tc.pathHtml,
        htmlInliner := tc.htmlInliner,
        templateVars := objAssign (baseVars opts u)
          (match tc.callback with
           | .fn f =>
             if isPlainObject (f opts.user) then plainFields (f opts.user)
             else []
           | _ => []),
        configurationSetName := tc.configurationSetName } := by
  unfold sendMailResolve
  rw [hn]
  simp only [Bool.false_eq_true, if_false, htc, hu]

/-- Claim C5 (confirmed): a named request whose templateName matches no
key of the template mapping throws the unknown-template error, and the
load capability is never invoked (loadCalls is empty). -/
theorem c5_unknown_template_rejected_before_load (env : Env)
    (st : AdapterState) (opts : SendOptions) (n : String)
    (h1 : opts.templateName = JSVal.jstr n) (h2 : n ≠ "")
    (h3 : st.templates.lookup n = none) :
    sendMail env st opts =
      { outcome := SendOutcome.thrown (AdapterError.unknownTemplate n),
        loadCalls := [] } := by
  unfold sendMail
  rw [resolve_named st opts n h1 h2, h3]

/-- A named request for a template that is not registered. -/
def optsUnknown : SendOptions :=
  { templateName := JSVal.jstr "nope", subject := JSVal.jstr "S",
    fromAddress := JSVal.undef, recipient := JSVal.jstr "a@b.example",
    vars := [], configurationSetName := JSVal.undef,
    link := JSVal.undef, appName := JSVal.undef, user := none,
    templateConfig := none }

/-- Witness for C5: the unregistered template name nope is rejected
with no load call. -/
theorem c5_unknown_template_rejected_before_load_witness :
    sendMail envOk stOne optsUnknown =
      { outcome := SendOutcome.thrown (AdapterError.unknownTemplate "nope"),
        loadCalls := [] } :=
  c5_unknown_template_rejected_before_load envOk stOne optsUnknown "nope"
    rfl (by decide) rfl

/-- Claim C10 (confirmed): dispatch in _sendMail is by the truthiness
of options.templateName.  A send call with a falsy templateName
(undefined or the empty string) is routed to the purpose branch where,
templateConfig being absent, reading templateConfig.callback raises a
TypeError; the named-path unknown-template validation is unreachable
there. -/
theorem c10_falsy_template_name_raises_type_error (env : Env)
    (st : AdapterState) (tn subj fa rec : JSVal)
    (vs : Option (List (String × JSVal))) (csn : JSVal)
    (h : truthy tn = false) :
    send env st tn subj fa rec vs csn =
      { outcome := SendOutcome.thrown AdapterError.typeError,
        loadCalls := [] } ∧
    ∀ n, (send env st tn subj fa rec vs csn).outcome ≠
      SendOutcome.thrown (AdapterError.unknownTemplate n) := by
  have hmain : send env st tn subj fa rec vs csn =
      { outcome := SendOutcome.thrown AdapterError.typeError,
        loadCalls := [] } := by
    unfold send sendMail sendMailResolve
    simp [h]
  exact ⟨hmain, fun n => by rw [hmain]; simp⟩

/-- Witness for C10: send with the empty-string template name raises
the TypeError. -/
theorem c10_falsy_template_name_raises_type_error_witness :
    send envOk stOne (JSVal.jstr "") JSVal.undef JSVal.undef
        (JSVal.jstr "a@b.example") none JSVal.undef =
      { outcome := SendOutcome.thrown AdapterError.typeError,
        loadCalls := [] } :=
  (c10_falsy_template_name_raises_type_error envOk stOne (JSVal.jstr "")
    JSVal.undef JSVal.undef (JSVal.jstr "a@b.example") none JSVal.undef
    (by decide)).1

/-- Counterexample to C6: a named request for the registered template
generic (which has no default subject), with no recipient and no
call-site subject, throws the missing-subject error, not the
missing-recipient error the claim requires: the subject check runs
first. -/
theorem c6_counterexample_missing_subject_thrown_first :
    (send envOk stOne (JSVal.jstr "generic") JSVal.undef JSVal.undef
        JSVal.undef none JSVal.undef).outcome
      = SendOutcome.thrown (AdapterError.missingSubject "generic") := by
  rfl

/-- Claim C6 (corrected): a named request with a known template and no
recipient throws before any load call; the error is the
missing-recipient error when a subject resolves (call-site or template
default), and the missing-subject error otherwise, because the subject
check precedes the recipient check. -/
theorem c6_amended_no_recipient_rejected_before_load (env : Env)
    (st : AdapterState) (opts : SendOptions) (n : String)
    (tmpl : TemplateEntry)
    (h1 : opts.templateName = JSVal.jstr n) (h2 : n ≠ "")
    (h3 : st.templates.lookup n = some tmpl)
    (h4 : truthy opts.recipient = false) :
    sendMail env st opts =
      { outcome := SendOutcome.thrown
          (if truthy opts.subject || truthy tmpl.subject then
            AdapterError.missingRecipient n
           else AdapterError.missingSubject n),
        loadCalls := [] } := by
  unfold sendMail
  rw [resolve_named st opts n h1 h2, h3]
  cases hs : truthy opts.subject <;> cases ht : truthy tmpl.subject <;>
    simp [hs, ht, h4]

/-- A named request for the registered template welcome with no
recipient and no call-site subject. -/
def optsNoRecipient : SendOptions :=
  { templateName := JSVal.jstr "welcome", subject := JSVal.undef,
    fromAddress := JSVal.undef, recipient := JSVal.undef, vars := [],
    configurationSetName := JSVal.undef, link := JSVal.undef,
    appName := JSVal.undef, user := none, templateConfig := none }

/-- Witness for C6 amended: the welcome template has a default
subject, so the missing-recipient error is thrown with no load
call. -/
theorem c6_amended_no_recipient_rejected_before_load_witness :
    sendMail envOk stOne optsNoRecipient =
      { outcome := SendOutcome.thrown
          (if truthy optsNoRecipient.subject || truthy entryWelcome.subject
           then AdapterError.missingRecipient "welcome"
           else AdapterError.missingSubject "welcome"),
        loadCalls := [] } :=
  c6_amended_no_recipient_rejected_before_load envOk stOne optsNoRecipient
    "welcome" entryWelcome rfl (by decide) rfl rfl

/-- Claim C4 (confirmed): on a named request for a registered
template, when neither the call-site subject nor the template default
subject is truthy the resolution throws the missing-subject error; on
a successful resolution the effective subject is the call-site subject
when truthy, else the template default, and the effective sender is
the per-call fromAddress when truthy, else the adapter default. -/
theorem c4_named_subject_and_sender_precedence (st : AdapterState)
    (opts : SendOptions) (n : String) (tmpl : TemplateEntry)
    (h1 : opts.templateName = JSVal.jstr n) (h2 : n ≠ "")
    (h3 : st.templates.lookup n = some tmpl) :
    ((truthy opts.subject = false ∧ truthy tmpl.subject = false) →
      sendMailResolve st opts =
        Except.error (AdapterError.missingSubject n)) ∧
    (∀ r, sendMailResolve st opts = Except.ok r →
      r.subject = jsOr opts.subject tmpl.subject ∧
      r.fromAddress = jsOr opts.fromAddress st.fromAddress) := by
  rw [resolve_named st opts n h1 h2, h3]
  constructor
  · rintro ⟨hs, ht⟩
    simp [hs, ht]
  · intro r hr
    cases hs : truthy opts.subject <;> cases ht : truthy tmpl.subject <;>
      cases hrec : truthy opts.recipient <;>
      simp [hs, ht, hrec] at hr <;> simp [← hr]

/-- A named request for the registered template welcome carrying a
call-site subject and recipient but no per-call sender. -/
def optsWelcome : SendOptions :=
  { templateName := JSVal.jstr "welcome", subject := JSVal.jstr "Hello",
    fromAddress := JSVal.undef, recipient := JSVal.jstr "ann@example.com",
    vars := [], configurationSetName := JSVal.undef,
    link := JSVal.undef, appName := JSVal.undef, user := none,
    templateConfig := none }

/-- The message optsWelcome resolves to against stOne. -/
def resolvedWelcome : ResolvedMessage :=
  { fromAddress := JSVal.jstr "noreply@example.com",
    toAddr := JSVal.jstr "ann@example.com",
    subject := JSVal.jstr "Hello",
    pathPlainText := JSVal.jstr "welcome.txt",
    pathHtml := JSVal.undef, htmlInliner := JSVal.undef,
    templateVars := [], configurationSetName := JSVal.undef }

/-- Witness for C4: the call-site subject Hello wins over the template
default Welcome, and the adapter default sender is used. -/
theorem c4_named_subject_and_sender_precedence_witness :
    resolvedWelcome.subject = jsOr optsWelcome.subject entryWelcome.subject ∧
    resolvedWelcome.fromAddress = jsOr optsWelcome.fromAddress stOne.fromAddress :=
  (c4_named_subject_and_sender_precedence stOne optsWelcome "welcome"
    entryWelcome rfl (by decide) rfl).2 resolvedWelcome rfl

/-- The recipient the resolution phase produced, none when resolution
threw. -/
def resolvedRecipient (st : AdapterState) (opts : SendOptions) :
    Option JSVal :=
  match sendMailResolve st opts with
  | .ok r => some r.toAddr
  | .error _ => none

/-- Counterexample to C3: a password-reset send for a user with
neither an email nor a username attribute does not fail; the pipeline
runs to completion and hands the transport a payload whose recipient
sequence is the singleton undefined value. -/
theorem c3_counterexample_undefined_recipient_dispatched :
    (sendPasswordResetEmail envOk stOne (JSVal.jstr "http://x/reset")
        (JSVal.jstr "App") (some userEmpty)).outcome
      = SendOutcome.transported
          { fromAddress := JSVal.jstr "noreply@example.com",
            toAddr := [JSVal.undef],
            subject := JSVal.jstr "Reset",
            text := "content of reset.txt",
            html := none,
            configurationSetName := JSVal.undef } := by
  rfl

/-- Claim C3 (corrected): on a purpose request the resolved recipient
is the email attribute when truthy, else the username attribute; when
neither attribute is present resolution still succeeds with the
undefined recipient — no missing-recipient error is raised on this
path. -/
theorem c3_amended_purpose_recipient_fallback (st : AdapterState)
    (opts : SendOptions) (tc : TemplateEntry) (u : User)
    (hn : truthy opts.templateName = false)
    (htc : opts.templateConfig = some tc)
    (hu : opts.user = some u) :
    resolvedRecipient st opts =
      some (jsOr (u.get "email") (u.get "username")) := by
  unfold resolvedRecipient
  rw [resolve_purpose st opts tc u hn htc hu]

/-- The options sendPasswordResetEmail builds against stOne for the
attribute-less user. -/
def optsPurposeEmpty : SendOptions :=
  purposeOptions (JSVal.jstr "http://x/reset") (JSVal.jstr "App")
    (some userEmpty) (some entryReset)

/-- Witness for C3 amended: with neither attribute present, resolution
succeeds and the recipient is the undefined value. -/
theorem c3_amended_purpose_recipient_fallback_witness :
    resolvedRecipient stOne optsPurposeEmpty =
      some (jsOr (userEmpty.get "email") (userEmpty.get "username")) :=
  c3_amended_purpose_recipient_fallback stOne optsPurposeEmpty entryReset
    userEmpty rfl rfl rfl

/-- The variable mapping the resolution phase produced, none when
resolution threw. -/
def resolvedVars (st : AdapterState) (opts : SendOptions) :
    Option (List (String × JSVal)) :=
  match sendMailResolve st opts with
  | .ok r => some r.templateVars
  | .error _ => none

/-- Claim C7 (confirmed): on a purpose request whose template callback
is a function, when the callback returns a value that is not a plain
object the effective variable set is exactly the base set
{link, appName, username, email}; when it returns a plain object the
effective set is the base set overlaid with its fields. -/
theorem c7_user_variable_overlay (st : AdapterState) (opts : SendOptions)
    (tc : TemplateEntry) (u : User) (f : Option User → JSVal)
    (hn : truthy opts.templateName = false)
    (htc : opts.templateConfig = some tc)
    (hu : opts.user = some u)
    (hcb : tc.callback = CallbackField.fn f) :
    (isPlainObject (f opts.user) = false →
      resolvedVars st opts = some (baseVars opts u)) ∧
    (∀ flds, f opts.user = JSVal.jobjPlain flds →
      resolvedVars st opts = some (objAssign (baseVars opts u) flds)) := by
  have hres := resolve_purpose st opts tc u hn htc hu
  constructor
  · intro hnp
    unfold resolvedVars
    rw [hres]
    simp [hcb, hnp, objAssign]
  · intro flds hf
    unfold resolvedVars
    rw [hres]
    simp [hcb, hf, isPlainObject, plainFields]

/-- A reset slot whose callback returns a plain string instead of a
plain object. -/
def entryResetStrCb : TemplateEntry :=
  { subject := JSVal.jstr "Reset", pathPlainText := JSVal.jstr "reset.txt",
    pathHtml := JSVal.undef, htmlInliner := JSVal.undef,
    callback := CallbackField.fn (fun _ => JSVal.jstr "oops"),
    configurationSetName := JSVal.undef }

/-- A purpose request through the string-returning callback slot. -/
def optsPurposeCb : SendOptions :=
  purposeOptions (JSVal.jstr "http://x/reset") (JSVal.jstr "App")
    (some userAnn) (some entryResetStrCb)

/-- Witness for C7: the string returned by the callback is discarded
and the variable set is exactly the base set. -/
theorem c7_user_variable_overlay_witness :
    resolvedVars stOne optsPurposeCb = some (baseVars optsPurposeCb userAnn) :=
  (c7_user_variable_overlay stOne optsPurposeCb entryResetStrCb userAnn
    (fun _ => JSVal.jstr "oops") rfl rfl rfl rfl).1 rfl

/-- Counterexample to C1: with a load capability that fails, a named
send does not reject; the rejection handler logs the cause to the
console and the returned promise fulfils with undefined, which the
model records as the errorLogged outcome. -/
theorem c1_counterexample_load_failure_swallowed :
    (sendMail envFail stOne optsWelcome).outcome
      = SendOutcome.errorLogged "ENOENT: no such file or directory" := by
  rfl

/-- Claim C1 (corrected): when the pipeline fails (template load
failure on the plain-text or html path), the transport capability is
never invoked, but the failure is not surfaced as a rejection: the
rejection handler logs the cause and the returned promise fulfils with
undefined. -/
theorem c1_amended_load_failure_logged_not_rejected (env : Env)
    (st : AdapterState) (opts : SendOptions) (r : ResolvedMessage)
    (c : String)
    (hr : sendMailResolve st opts = Except.ok r)
    (hl : (runPipeline env r).1 = Except.error c) :
    (sendMail env st opts).outcome = SendOutcome.errorLogged c ∧
    ∀ p, (sendMail env st opts).outcome ≠ SendOutcome.transported p := by
  have hmain : (sendMail env st opts).outcome = SendOutcome.errorLogged c := by
    unfold sendMail
    rw [hr]
    simp only [hl]
  exact ⟨hmain, fun p => by rw [hmain]; simp⟩

/-- Witness for C1 amended: the failing loader yields the errorLogged
outcome on the welcome send. -/
theorem c1_amended_load_failure_logged_not_rejected_witness :
    (sendMail envFail stOne optsWelcome).outcome
      = SendOutcome.errorLogged "ENOENT: no such file or directory" :=
  (c1_amended_load_failure_logged_not_rejected envFail stOne optsWelcome
    resolvedWelcome "ENOENT: no such file or directory" rfl rfl).1

/-- On a successful pipeline run, the payload carries the recipient as
a singleton sequence and the subject and interpolated text verbatim
from the resolved message. -/
theorem runPipeline_ok_payload (env : Env) (r : ResolvedMessage)
    (p : Payload) (calls : List JSVal) (content : String)
    (h : runPipeline env r = (Except.ok p, calls))
    (hl : runLoad env r.pathPlainText = Except.ok content) :
    p.toAddr = [r.toAddr] ∧ p.subject = r.subject ∧
    p.text = env.interpolate content r.templateVars := by
  unfold runPipeline at h
  rw [hl] at h
  cases hh : truthy r.pathHtml <;> simp only [hh] at h
  · simp only [Bool.false_eq_true, if_false] at h
    obtain ⟨hp, -⟩ := Prod.mk.injEq .. ▸ h
    cases hp
    exact ⟨rfl, rfl, rfl⟩
  · simp only [if_true] at h
    cases hl2 : runLoad env r.pathHtml <;> rw [hl2] at h
    · exact absurd (congrArg Prod.fst h) (by simp)
    · obtain ⟨hp, -⟩ := Prod.mk.injEq .. ▸ h
      cases hp
      exact ⟨rfl, rfl, rfl⟩

/-- Claim C8 (confirmed): whenever a send reaches the transport, the
payload it hands over carries the recipient normalized to the
singleton sequence of the resolved recipient, and the subject and the
interpolated text of the resolved message verbatim. -/
theorem c8_payload_carries_resolved_message (env : Env)
    (st : AdapterState) (opts : SendOptions) (r : ResolvedMessage)
    (content : String) (p : Payload)
    (hr : sendMailResolve st opts = Except.ok r)
    (hl : runLoad env r.pathPlainText = Except.ok content)
    (hp : (sendMail env st opts).outcome = SendOutcome.transported p) :
    p.toAddr = [r.toAddr] ∧ p.subject = r.subject ∧
    p.text = env.interpolate content r.templateVars := by
  unfold sendMail at hp
  rw [hr] at hp
  dsimp only at hp
  rcases hq : runPipeline env r with ⟨res, calls⟩
  rw [hq] at hp
  dsimp only at hp
  cases res with
  | error c => simp at hp
  | ok p0 =>
    simp only [SendOutcome.transported.injEq] at hp
    exact hp ▸ runPipeline_ok_payload env r p0 calls content hq hl

/-- The payload the welcome send hands to the transport under the
always-succeeding loader. -/
def payloadWelcome : Payload :=
  { fromAddress := JSVal.jstr "noreply@example.com",
    toAddr := [JSVal.jstr "ann@example.com"],
    subject := JSVal.jstr "Hello",
    text := "content of welcome.txt", html := none,
    configurationSetName := JSVal.undef }

/-- Witness for C8: the concrete welcome payload satisfies the three
carried-through equalities. -/
theorem c8_payload_carries_resolved_message_witness :
    payloadWelcome.toAddr = [resolvedWelcome.toAddr] ∧
    payloadWelcome.subject = resolvedWelcome.subject ∧
    payloadWelcome.text =
      envOk.interpolate "content of welcome.txt" resolvedWelcome.templateVars :=
  c8_payload_carries_resolved_message envOk stOne optsWelcome
    resolvedWelcome "content of welcome.txt" payloadWelcome rfl rfl rfl

end AmazonSESAdapter
